import Mathlib

/-!
Shallow embedding of the Kubernetes connector and tool layer of this
repository, together with theorems settling the claims about its
command-dispatch and result-normalization contract.

The embedding models Python dictionaries as JSON-like values (`JValue`),
subprocess invocations as oracle functions from the constructed argument
vector to an outcome, and Kubernetes-API calls as oracle outcomes.  Each
connector operation is translated from
`src/mcp_server/src/connectors/kubernetes_connector.py`; the tool layer
comes from `src/mcp_server/src/tools/kubernetes_read_tool.py` and the
singleton metaclass from `src/mcp_server/src/utils/singleton.py`.
-/

/-- JSON-like values: the shape of every dictionary the connector returns
(`json.dumps(..., default=str)`-serializable payloads). -/
inductive JValue where
  | jnull
  | jbool (b : Bool)
  | jnum (n : Int)
  | jstr (s : String)
  | jarr (xs : List JValue)
  | jobj (fields : List (String × JValue))

/-- Look a key up in a JSON object field list (first match wins, as in a
Python dict literal where our field lists never repeat keys). -/
def jlookup : List (String × JValue) → String → Option JValue
  | [], _ => none
  | (k2, v) :: rest, k => if k2 == k then some v else jlookup rest k

/-- Field access on a JSON value: `some v` when the value is an object
with that key. -/
def jget (j : JValue) (k : String) : Option JValue :=
  match j with
  | .jobj fields => jlookup fields k
  | _ => none

/-- The string stored under the "status" key of a result dictionary,
when present. -/
def statusOf (j : JValue) : Option String :=
  match jget j "status" with
  | some (.jstr s) => some s
  | _ => none

/-- Whether a result dictionary has the given key at its top level. -/
def hasField (j : JValue) (k : String) : Bool :=
  (jget j k).isSome

/-- Python truthiness of an optional string argument: `None` and `""` are
falsy (`if namespace:` style guards in the connector). -/
def truthyOpt : Option String → Bool
  | none => false
  | some s => !s.isEmpty

/-- The string carried by an optional argument (only meaningful under
`truthyOpt`). -/
def optVal : Option String → String
  | none => ""
  | some s => s

/-- Render an optional string field (`None` becomes JSON null). -/
def optStrJ : Option String → JValue
  | none => .jnull
  | some s => .jstr s

/-- Render an optional integer field (`None` becomes JSON null). -/
def optIntJ : Option Int → JValue
  | none => .jnull
  | some n => .jnum n

/-- Render a Python `labels or {}` style optional string-to-string map. -/
def labelsJ (l : Option (List (String × String))) : JValue :=
  .jobj ((l.getD []).map (fun p => (p.1, .jstr p.2)))

/-- Outcome of a Kubernetes SDK call: the returned items, or a raised
`ApiException`, or any other raised exception (the two `except` arms of
every read operation). -/
inductive ApiOutcome (α : Type) where
  | ok (items : α)
  | apiExn (msg : String)
  | otherExn (msg : String)

/-! ### Kubernetes object graphs consumed by the Resource Reader

Flattened models of the SDK objects whose fields `get_pods`,
`get_deployments`, `get_services` and `get_namespaces` read.  Timestamps
are carried as their ISO-8601 rendering (the code only ever calls
`isoformat()` on them). -/

structure ObjectMeta where
  name : String
  nsp : String
  creation_timestamp : Option String
  labels : Option (List (String × String))

structure ContainerSpec where
  name : String
  image : String

structure ContainerStatus where
  name : String
  ready : Bool

structure PodStatus where
  phase : Option String
  container_statuses : Option (List ContainerStatus)

structure PodSpec where
  node_name : Option String
  containers : List ContainerSpec

structure Pod where
  metadata : ObjectMeta
  spec : PodSpec
  status : PodStatus

/-- The per-container ready flag of `get_pods`
(kubernetes_connector.py:80-82):
`any(cs.ready for cs in pod.status.container_statuses or [] if cs.name == container.name)`. -/
def containerReady (st : PodStatus) (cname : String) : Bool :=
  ((st.container_statuses.getD []).filter (fun cs => cs.name == cname)).any
    (fun cs => cs.ready)

/-- The `pod_info` dictionary built for each pod
(kubernetes_connector.py:67-86). -/
def pod_info (pod : Pod) : JValue :=
  .jobj [
    ("name", .jstr pod.metadata.name),
    ("namespace", .jstr pod.metadata.nsp),
    ("status", optStrJ pod.status.phase),
    ("node", optStrJ pod.spec.node_name),
    ("created", optStrJ pod.metadata.creation_timestamp),
    ("labels", labelsJ pod.metadata.labels),
    ("containers", .jarr (pod.spec.containers.map (fun container =>
      .jobj [
        ("name", .jstr container.name),
        ("image", .jstr container.image),
        ("ready", .jbool (containerReady pod.status container.name))])))
  ]

/-- Embedding of `KubernetesAPIConnector.get_pods` (kubernetes_connector.py:49-94).
`hasV1` models the `if not self.v1_client` guard; the namespace and label
selector are forwarded to the cluster API, whose reply is the
`outcome` oracle. -/
def get_pods (hasV1 : Bool) (nsp : String) (label_selector : Option String)
    (outcome : ApiOutcome (List Pod)) : JValue :=
  if !hasV1 then .jobj [("error", .jstr "Kubernetes client not initialized")]
  else
    match outcome with
    | .apiExn m => .jobj [("error", .jstr ("Kubernetes API error: " ++ m))]
    | .otherExn m => .jobj [("error", .jstr ("Unexpected error: " ++ m))]
    | .ok pods =>
      let pod_list := pods.map pod_info
      .jobj [("pods", .jarr pod_list), ("total_count", .jnum pod_list.length)]

structure DeploymentSpec where
  replicas : Option Int
  match_labels : Option (List (String × String))

structure DeploymentStatus where
  ready_replicas : Option Int
  available_replicas : Option Int
  updated_replicas : Option Int

structure Deployment where
  metadata : ObjectMeta
  spec : DeploymentSpec
  status : DeploymentStatus

/-- The `deployment_info` dictionary (kubernetes_connector.py:113-127). -/
def deployment_info (d : Deployment) : JValue :=
  .jobj [
    ("name", .jstr d.metadata.name),
    ("namespace", .jstr d.metadata.nsp),
    ("replicas", optIntJ d.spec.replicas),
    ("ready_replicas", .jnum (d.status.ready_replicas.getD 0)),
    ("available_replicas", .jnum (d.status.available_replicas.getD 0)),
    ("updated_replicas", .jnum (d.status.updated_replicas.getD 0)),
    ("created", optStrJ d.metadata.creation_timestamp),
    ("labels", labelsJ d.metadata.labels),
    ("selector", labelsJ d.spec.match_labels)
  ]

/-- Embedding of `KubernetesAPIConnector.get_deployments`
(kubernetes_connector.py:96-135). -/
def get_deployments (hasApps : Bool) (nsp : String)
    (outcome : ApiOutcome (List Deployment)) : JValue :=
  if !hasApps then .jobj [("error", .jstr "Kubernetes client not initialized")]
  else
    match outcome with
    | .apiExn m => .jobj [("error", .jstr ("Kubernetes API error: " ++ m))]
    | .otherExn m => .jobj [("error", .jstr ("Unexpected error: " ++ m))]
    | .ok deployments =>
      let deployment_list := deployments.map deployment_info
      .jobj [("deployments", .jarr deployment_list),
             ("total_count", .jnum deployment_list.length)]

/-- Kubernetes `target_port` values are integers or strings. -/
inductive TargetPort where
  | tint (n : Int)
  | tstr (s : String)

def targetPortJ : Option TargetPort → JValue
  | none => .jnull
  | some (.tint n) => .jnum n
  | some (.tstr s) => .jstr s

structure ServicePort where
  name : Option String
  port : Int
  target_port : Option TargetPort
  protocol : Option String

structure ServiceSpec where
  type : Option String
  cluster_ip : Option String
  external_i_ps : Option (List String)
  ports : Option (List ServicePort)
  selector : Option (List (String × String))

structure Service where
  metadata : ObjectMeta
  spec : ServiceSpec

/-- The `service_info` dictionary (kubernetes_connector.py:154-174). -/
def service_info (s : Service) : JValue :=
  .jobj [
    ("name", .jstr s.metadata.name),
    ("namespace", .jstr s.metadata.nsp),
    ("type", optStrJ s.spec.type),
    ("cluster_ip", optStrJ s.spec.cluster_ip),
    ("external_ips", .jarr ((s.spec.external_i_ps.getD []).map .jstr)),
    ("ports", .jarr ((s.spec.ports.getD []).map (fun port =>
      .jobj [
        ("name", optStrJ port.name),
        ("port", .jnum port.port),
        ("target_port", targetPortJ port.target_port),
        ("protocol", optStrJ port.protocol)]))),
    ("selector", labelsJ s.spec.selector),
    ("created", optStrJ s.metadata.creation_timestamp),
    ("labels", labelsJ s.metadata.labels)
  ]

/-- Embedding of `KubernetesAPIConnector.get_services`
(kubernetes_connector.py:137-182). -/
def get_services (hasV1 : Bool) (nsp : String)
    (outcome : ApiOutcome (List Service)) : JValue :=
  if !hasV1 then .jobj [("error", .jstr "Kubernetes client not initialized")]
  else
    match outcome with
    | .apiExn m => .jobj [("error", .jstr ("Kubernetes API error: " ++ m))]
    | .otherExn m => .jobj [("error", .jstr ("Unexpected error: " ++ m))]
    | .ok services =>
      let service_list := services.map service_info
      .jobj [("services", .jarr service_list),
             ("total_count", .jnum service_list.length)]

structure NamespaceStatus where
  phase : Option String

structure NamespaceObj where
  metadata : ObjectMeta
  status : NamespaceStatus

/-- The `namespace_info` dictionary (kubernetes_connector.py:198-207). -/
def namespace_info (n : NamespaceObj) : JValue :=
  .jobj [
    ("name", .jstr n.metadata.name),
    ("status", optStrJ n.status.phase),
    ("created", optStrJ n.metadata.creation_timestamp),
    ("labels", labelsJ n.metadata.labels)
  ]

/-- Embedding of `KubernetesAPIConnector.get_namespaces`
(kubernetes_connector.py:184-215). -/
def get_namespaces (hasV1 : Bool)
    (outcome : ApiOutcome (List NamespaceObj)) : JValue :=
  if !hasV1 then .jobj [("error", .jstr "Kubernetes client not initialized")]
  else
    match outcome with
    | .apiExn m => .jobj [("error", .jstr ("Kubernetes API error: " ++ m))]
    | .otherExn m => .jobj [("error", .jstr ("Unexpected error: " ++ m))]
    | .ok namespaces =>
      let namespace_list := namespaces.map namespace_info
      .jobj [("namespaces", .jarr namespace_list),
             ("total_count", .jnum namespace_list.length)]

/-! ### Subprocess model

CLI-backed operations build an argument vector and hand it to
`subprocess.run(cmd, capture_output=True, text=True)`.  The outcome is an
oracle from the constructed command to either a completed process or a
raised exception (covering failures while creating the temp file or
spawning the command).  Each operation also returns the list of commands
it handed to the subprocess layer, so spawn counts are provable. -/

structure CompletedProcess where
  returncode : Int
  stdout : String
  stderr : String

inductive SpawnResult where
  | ok (r : CompletedProcess)
  | exn (msg : String)

/-- The shared tail of both `kubectl_apply` run branches
(kubernetes_connector.py:464-476): run the command, then map exit code 0
to a success envelope, nonzero to an error envelope, and a raised
exception to the bare apply error dictionary. -/
def runApply (cmd : List String) (spawn : List String → SpawnResult) :
    JValue × List (List String) :=
  match spawn cmd with
  | .exn m =>
    (.jobj [("error", .jstr ("Failed to apply manifest: " ++ m))], [cmd])
  | .ok r =>
    if r.returncode != 0 then
      (.jobj [("status", .jstr "error"), ("message", .jstr r.stderr)], [cmd])
    else
      (.jobj [("status", .jstr "success"), ("message", .jstr r.stdout)], [cmd])

/-- Embedding of `KubernetesAPIConnector.kubectl_apply`
(kubernetes_connector.py:433-476).  `tmpName` is the name the temp file
holding the manifest receives; the `-f` flag points at it when a manifest
string is supplied. -/
def kubectl_apply (manifest filename nsp : Option String) (force : Bool)
    (tmpName : String) (spawn : List String → SpawnResult) :
    JValue × List (List String) :=
  let cmd := ["kubectl", "apply"]
  let cmd := if truthyOpt nsp then cmd ++ ["-n", optVal nsp] else cmd
  let cmd := if force then cmd ++ ["--force"] else cmd
  if truthyOpt manifest then
    runApply (cmd ++ ["-f", tmpName]) spawn
  else if truthyOpt filename then
    runApply (cmd ++ ["-f", optVal filename]) spawn
  else
    (.jobj [("error", .jstr "Either manifest or filename must be provided")], [])

/-- Embedding of `KubernetesAPIConnector.kubectl_generic`
(kubernetes_connector.py:676-711). -/
def kubectl_generic (args : List String) (capture_output : Bool)
    (spawn : List String → SpawnResult) : JValue × List (List String) :=
  let cmd := ["kubectl"] ++ args
  match spawn cmd with
  | .exn m =>
    (.jobj [("error", .jstr ("Failed to execute kubectl command: " ++ m))], [cmd])
  | .ok r =>
    if capture_output then
      if r.returncode != 0 then
        (.jobj [("status", .jstr "error"),
                ("command", .jstr (String.intercalate " " cmd)),
                ("stdout", .jstr r.stdout),
                ("stderr", .jstr r.stderr)], [cmd])
      else
        (.jobj [("status", .jstr "success"),
                ("command", .jstr (String.intercalate " " cmd)),
                ("output", .jstr r.stdout)], [cmd])
    else
      (.jobj [("status", .jstr "success"),
              ("command", .jstr (String.intercalate " " cmd)),
              ("output", .jstr "Command executed (output not captured)")], [cmd])

/-- A result that is the bare single-key caller-error or exception
dictionary, carrying no status tag. -/
def bareError (j : JValue) : Bool :=
  match j with
  | .jobj [("error", .jstr _)] => true
  | _ => false

/-- The shape every `kubectl_apply`/`kubectl_generic` result actually
takes: a status-tagged envelope or the bare error dictionary, never
carrying the identifying context fields. -/
def dispatchShape (j : JValue) : Bool :=
  ((statusOf j == some "success") || (statusOf j == some "error") || bareError j)
  && !hasField j "resource_type" && !hasField j "name" && !hasField j "namespace"

/-- The argument vector `kubectl_patch` builds
(kubernetes_connector.py:899-909), including the dict-with-default
lookup that maps any unknown patch_type to the strategic flag. -/
def patchCmd (resource_type name patch : String) (nsp : Option String)
    (patch_type : String) : List String :=
  let cmd := ["kubectl", "patch", resource_type, name]
  let cmd := if truthyOpt nsp then cmd ++ ["-n", optVal nsp] else cmd
  let patch_type_flag :=
    if patch_type == "strategic" then "--type=strategic"
    else if patch_type == "merge" then "--type=merge"
    else if patch_type == "json" then "--type=json"
    else "--type=strategic"
  cmd ++ [patch_type_flag] ++ ["-p", patch]

/-- Embedding of `KubernetesAPIConnector.kubectl_patch`
(kubernetes_connector.py:881-930). -/
def kubectl_patch (resource_type name patch : String) (nsp : Option String)
    (patch_type : String) (spawn : List String → SpawnResult) :
    JValue × List (List String) :=
  let cmd := patchCmd resource_type name patch nsp patch_type
  match spawn cmd with
  | .exn m =>
    (.jobj [("error", .jstr ("Failed to patch resource: " ++ m))], [cmd])
  | .ok r =>
    if r.returncode != 0 then
      (.jobj [("status", .jstr "error"),
              ("resource_type", .jstr resource_type),
              ("name", .jstr name),
              ("namespace", optStrJ nsp),
              ("message", .jstr r.stderr)], [cmd])
    else
      (.jobj [("status", .jstr "success"),
              ("resource_type", .jstr resource_type),
              ("name", .jstr name),
              ("namespace", optStrJ nsp),
              ("result", .jstr r.stdout)], [cmd])

/-- Helper for Python `str.split()` with no separator: walk the character
list, treating whitespace runs as separators and discarding empty
tokens.  `acc` holds the current token's characters in reverse. -/
def pyTokensAux : List Char → List Char → List String
  | [], acc => if acc.isEmpty then [] else [String.mk acc.reverse]
  | c :: cs, acc =>
    if c.isWhitespace then
      if acc.isEmpty then pyTokensAux cs []
      else String.mk acc.reverse :: pyTokensAux cs []
    else pyTokensAux cs (c :: acc)

/-- Python `str.split()` with no separator. -/
def pySplit (s : String) : List String :=
  pyTokensAux s.data []

/-- Helper for Python `str.split("\n")`: split on each newline, keeping
empty fields. -/
def splitNlAux : List Char → List Char → List String
  | [], acc => [String.mk acc.reverse]
  | c :: cs, acc =>
    if c = '\n' then String.mk acc.reverse :: splitNlAux cs []
    else splitNlAux cs (c :: acc)

/-- Python `str.strip()`: drop leading and trailing whitespace. -/
def pyStrip (s : String) : String :=
  String.mk
    (((s.data.dropWhile Char.isWhitespace).reverse.dropWhile
        Char.isWhitespace).reverse)

/-- Parsing of one `kubectl api-resources` output line
(kubernetes_connector.py:1046-1055): lines with fewer than five
whitespace-separated tokens are skipped; a shortnames token equal to the
literal "none" becomes an empty list. -/
def parseApiLine (line : String) : Option JValue :=
  match pySplit line with
  | p0 :: p1 :: p2 :: p3 :: p4 :: _ =>
    some (.jobj [
      ("name", .jstr p0),
      ("shortnames", if p1 == "none" then .jarr [] else .jstr p1),
      ("apiversion", .jstr p2),
      ("namespaced", .jbool (p3 == "true")),
      ("kind", .jstr p4)])
  | _ => none

/-- The lines the parser iterates over
(kubernetes_connector.py:1041-1045): strip the stdout blob, split on
newlines, and skip the header row when more than one line is present. -/
def apiResourceLines (stdoutText : String) : List String :=
  let lines := splitNlAux (pyStrip stdoutText).data []
  if lines.length > 1 then lines.drop 1 else []

/-- Embedding of `KubernetesAPIConnector.list_api_resources`
(kubernetes_connector.py:1024-1059). -/
def list_api_resources (spawn : List String → SpawnResult) :
    JValue × List (List String) :=
  let cmd := ["kubectl", "api-resources"]
  match spawn cmd with
  | .exn m =>
    (.jobj [("error", .jstr ("Failed to list API resources: " ++ m))], [cmd])
  | .ok r =>
    if r.returncode != 0 then
      (.jobj [("status", .jstr "error"), ("message", .jstr r.stderr)], [cmd])
    else
      let resources := (apiResourceLines r.stdout).filterMap parseApiLine
      (.jobj [("status", .jstr "success"),
              ("resources", .jarr resources),
              ("total_count", .jnum resources.length)], [cmd])

/-! ### Log Follower (kubernetes_connector.py:784-879, follow branch)

The follow branch spawns `kubectl logs ... -f` with `subprocess.Popen`,
arms a `threading.Timer(max_follow_seconds, process.kill)`, accumulates
stdout lines until the stream closes, then runs the `finally` block
(`kill_timer.cancel(); process.terminate()`), reads stderr, and builds
the result.  `Popen.returncode` is set only when `poll()`/`wait()` reaps
the child; the only reap on this path is the `poll()` performed inside
`send_signal` by `terminate()` (CPython ≥ 3.9, the interpreter range
this project's `mcp` dependency requires), which succeeds exactly when
the child has already terminated at that moment. -/

/-- One observed execution of the followed subprocess. -/
structure FollowOutcome where
  /-- stdout lines accumulated before the stream closed. -/
  lines : List String
  /-- the `max_follow_seconds` timer fired and SIGKILLed the process. -/
  timerFired : Bool
  /-- the child had already terminated when the finally-block
  `terminate()` ran (true both after a natural exit and after the timer's
  kill, since the stdout stream closes at child death). -/
  exitedBeforeTerminate : Bool
  /-- the exit status `poll()` reaps when the child is already dead. -/
  exitCode : Int
  /-- what `process.stderr.read()` returns afterwards. -/
  stderrAfter : String

/-- The value of `Popen.returncode` as observed at the `"truncated"` computation:
`terminate()`'s internal `poll()` has reaped the child exactly when it
was already dead; nothing else on this code path reaps it. -/
def returncodeAfterTerminate (o : FollowOutcome) : Option Int :=
  if o.exitedBeforeTerminate then some o.exitCode else none

/-- The follow branch of `KubernetesAPIConnector.kubectl_logs`
(kubernetes_connector.py:828-859). -/
def kubectl_logs_follow (resource_name : String) (container : Option String)
    (nsp : String) (o : FollowOutcome) : JValue :=
  if !o.stderrAfter.isEmpty then
    .jobj [("status", .jstr "error"),
           ("resource_name", .jstr resource_name),
           ("namespace", .jstr nsp),
           ("message", .jstr o.stderrAfter)]
  else
    .jobj [("status", .jstr "success"),
           ("resource_name", .jstr resource_name),
           ("namespace", .jstr nsp),
           ("container", optStrJ container),
           ("logs", .jstr (String.join o.lines)),
           ("truncated", .jbool (returncodeAfterTerminate o).isNone)]

/-! ### Port-Forward Manager (kubernetes_connector.py:1152-1189)

The session table `self._port_forward_processes` is an insertion-ordered
mapping from key to subprocess handle; it is absent (`hasattr` false)
until the first `port_forward` call creates it.  We model it as
`Option (List (String × Nat))` (association list keyed by session key,
values are opaque process ids) and model `process.wait(timeout=5)` with
an oracle: `none` when the wait returns within the timeout, `some m`
when it raises an exception rendered as `m`. -/

/-- Association-list membership for the session table. -/
def sessionLookup : List (String × Nat) → String → Option Nat
  | [], _ => none
  | (k2, p) :: rest, k => if k2 == k then some p else sessionLookup rest k

/-- Association-list deletion for `del self._port_forward_processes[key]`. -/
def sessionRemove : List (String × Nat) → String → List (String × Nat)
  | [], _ => []
  | (k2, p) :: rest, k =>
    if k2 == k then sessionRemove rest k else (k2, p) :: sessionRemove rest k

/-- The stop-all loop (kubernetes_connector.py:1176-1187): iterate the
items in order, terminate and wait on each, delete it, and count it; a
raised wait exception aborts the loop with the entries from the failing
one onwards still in the table. -/
def stopAllLoop (wait : String → Option String) :
    List (String × Nat) → Nat → JValue × List (String × Nat)
  | [], stopped_count =>
    (.jobj [("status", .jstr "success"),
            ("message", .jstr ("Stopped all port-forwarding processes ("
              ++ toString stopped_count ++ " total)"))], [])
  | (k, p) :: rest, stopped_count =>
    match wait k with
    | none => stopAllLoop wait rest (stopped_count + 1)
    | some m =>
      (.jobj [("error", .jstr ("Failed to stop port forwarding: " ++ m))],
       (k, p) :: rest)

/-- Embedding of `KubernetesAPIConnector.stop_port_forward`
(kubernetes_connector.py:1152-1189). -/
def stop_port_forward (st : Option (List (String × Nat)))
    (process_key : Option String) (wait : String → Option String) :
    JValue × Option (List (String × Nat)) :=
  match st with
  | none =>
    (.jobj [("status", .jstr "warning"),
            ("message", .jstr "No port-forwarding processes exist")], none)
  | some table =>
    if truthyOpt process_key then
      let k := optVal process_key
      match sessionLookup table k with
      | some _ =>
        match wait k with
        | none =>
          (.jobj [("status", .jstr "success"),
                  ("message", .jstr ("Stopped port-forwarding for " ++ k))],
           some (sessionRemove table k))
        | some m =>
          (.jobj [("error", .jstr ("Failed to stop port forwarding: " ++ m))],
           some table)
      | none =>
        (.jobj [("status", .jstr "error"),
                ("message", .jstr ("No port-forwarding process found for key: "
                  ++ k))], some table)
    else
      let r := stopAllLoop wait table 0
      (r.1, some r.2)

/-! ### Singleton metaclass (singleton.py:20-48)

`Singleton.__call__` keeps a per-class `_instances` entry; we model the
state for one class as `Option I` and a construction call as a
transition returning the instance handed back, the new state, and how
many constructor runs the call performed. -/

/-- One `Singleton.__call__` invocation. -/
def singletonCall {A I : Type} (mk : A → I) (st : Option I) (args : A) :
    I × Option I × Nat :=
  match st with
  | some inst => (inst, some inst, 0)
  | none => (mk args, some (mk args), 1)

/-- A sequence of construction calls, returning the instances handed
back in order, the final state, and the total constructor runs. -/
def singletonRun {A I : Type} (mk : A → I) :
    Option I → List A → List I × Option I × Nat
  | st, [] => ([], st, 0)
  | st, args :: rest =>
    let c := singletonCall mk st args
    let r := singletonRun mk c.2.1 rest
    (c.1 :: r.1, r.2.1, c.2.2 + r.2.2)

/-! ### Tool layer (kubernetes_read_tool.py:22-58)

`kubernetes_read_tool` optionally receives a connector; when none is
supplied it constructs the singleton with `KubernetesAPIConnector()` on
line 42, *before* entering the try block, so an exception raised during
that construction (e.g. `config.load_incluster_config()` failing outside
a cluster) propagates to the caller.  The connector's method results are
oracles; `json.dumps(..., indent=2, default=str)` is an abstract total
serializer. -/

/-- Outcome of a Python call: its return value or a raised exception. -/
inductive PyResult (α : Type) where
  | ok (val : α)
  | exn (msg : String)

/-- The connector methods the tool dispatches to, as outcome oracles
keyed by the arguments the tool passes. -/
structure ConnectorCalls where
  get_pods : String → Option String → PyResult JValue
  get_deployments : String → PyResult JValue
  get_services : String → PyResult JValue
  get_namespaces : PyResult JValue

/-- Model of `mcp.types.TextContent` as the tool returns it. -/
structure TextContent where
  type : String
  text : String

/-- What a tool call does at its boundary: return a content list or
raise. -/
inductive ToolResult where
  | returns (contents : List TextContent)
  | raises (msg : String)

/-- The dispatch inside the tool's try block
(kubernetes_read_tool.py:44-53), including the label-selector
truthiness rewrite and the unsupported-resource error dictionary. -/
def readDispatch (resource_type nsp label_selector : String)
    (c : ConnectorCalls) : PyResult JValue :=
  if resource_type == "pod" || resource_type == "pods" then
    c.get_pods nsp
      (if label_selector.isEmpty then none else some label_selector)
  else if resource_type == "deployment" || resource_type == "deployments"
      || resource_type == "deploy" then
    c.get_deployments nsp
  else if resource_type == "service" || resource_type == "services"
      || resource_type == "svc" then
    c.get_services nsp
  else if resource_type == "namespace" || resource_type == "namespaces"
      || resource_type == "ns" then
    c.get_namespaces
  else
    .ok (.jobj [("error",
      .jstr ("Resource type '" ++ resource_type ++ "' not supported"))])

/-- Embedding of `kubernetes_read_tool` (kubernetes_read_tool.py:22-58).
`constructorOutcome` is what `KubernetesAPIConnector()` would produce
when no connector is passed in. -/
def kubernetes_read_tool (resource_type nsp label_selector : String)
    (k8s_connector : Option ConnectorCalls)
    (constructorOutcome : PyResult ConnectorCalls)
    (dumps : JValue → String) : ToolResult :=
  match (match k8s_connector with
         | some c => PyResult.ok c
         | none => constructorOutcome) with
  | .exn m => .raises m
  | .ok c =>
    match readDispatch resource_type nsp label_selector c with
    | .ok result => .returns [⟨"text", dumps result⟩]
    | .exn m => .returns [⟨"text", dumps (.jobj [("error",
        .jstr ("Tool execution failed: " ++ m))])⟩]

/-! ### Theorems settling the claims -/

/-- C2: for every namespace and every object list returned by the cluster
API, each list operation (get_pods, get_deployments, get_services,
get_namespaces) returns a result whose total_count field equals the
length of the record list it returns, with the records in the same order
as the API returned them. -/
theorem listOps_total_count_eq_length (nsp : String) (sel : Option String)
    (pods : List Pod) (deps : List Deployment) (svcs : List Service)
    (nss : List NamespaceObj) :
    get_pods true nsp sel (.ok pods)
      = .jobj [("pods", .jarr (pods.map pod_info)),
               ("total_count", .jnum pods.length)]
  ∧ get_deployments true nsp (.ok deps)
      = .jobj [("deployments", .jarr (deps.map deployment_info)),
               ("total_count", .jnum deps.length)]
  ∧ get_services true nsp (.ok svcs)
      = .jobj [("services", .jarr (svcs.map service_info)),
               ("total_count", .jnum svcs.length)]
  ∧ get_namespaces true (.ok nss)
      = .jobj [("namespaces", .jarr (nss.map namespace_info)),
               ("total_count", .jnum nss.length)] := by
  refine ⟨?_, ?_, ?_, ?_⟩ <;>
    simp [get_pods, get_deployments, get_services, get_namespaces]

/-- C3: the computed per-container ready flag is false whenever the pod
status has no container-status entry with the container's name
(including when the container-status list is absent), and otherwise
equals the ready value of the matching container-status entry. -/
theorem containerReady_cases (st : PodStatus) (container : ContainerSpec) :
    (st.container_statuses = none → containerReady st container.name = false)
  ∧ (((st.container_statuses.getD []).filter
        (fun cs => cs.name == container.name)) = [] →
      containerReady st container.name = false)
  ∧ (∀ cs, ((st.container_statuses.getD []).filter
        (fun cs2 => cs2.name == container.name)) = [cs] →
      containerReady st container.name = cs.ready) := by
  refine ⟨?_, ?_, ?_⟩
  · intro h
    simp [containerReady, h]
  · intro h
    simp [containerReady, h]
  · intro cs h
    simp [containerReady, h]

/-- Concrete check of the C3 theorem: a container whose name matches a
ready status entry reports ready, and one absent from the status list
reports not ready. -/
theorem containerReady_cases_witness :
    containerReady ⟨some "Running", some [⟨"app", true⟩]⟩ "app" = true
  ∧ containerReady ⟨some "Running", some [⟨"app", true⟩]⟩ "sidecar" = false := by
  constructor
  · exact (containerReady_cases ⟨some "Running", some [⟨"app", true⟩]⟩
      ⟨"app", "img"⟩).2.2 ⟨"app", true⟩ rfl
  · exact (containerReady_cases ⟨some "Running", some [⟨"app", true⟩]⟩
      ⟨"sidecar", "img"⟩).2.1 rfl

/-- C1 counterexample: when the subprocess layer raises while applying a
manifest, `kubectl_apply` returns the bare `{"error": ...}` dictionary,
which has no "status" tag and none of the identifying context fields, so
the result is neither of the two claimed envelope shapes. -/
theorem kubectl_apply_exception_envelope_counterexample :
    statusOf ((kubectl_apply (some "kind: Pod") none none false "tmp.yaml"
        (fun _ => .exn "boom")).1) = none
  ∧ bareError ((kubectl_apply (some "kind: Pod") none none false "tmp.yaml"
        (fun _ => .exn "boom")).1) = true
  ∧ hasField ((kubectl_apply (some "kind: Pod") none none false "tmp.yaml"
        (fun _ => .exn "boom")).1) "resource_type" = false := by
  exact ⟨rfl, rfl, rfl⟩

/-- Exit-code correspondence of the shared `kubectl_apply` run tail: on a
completed process the envelope is status success exactly on exit code 0
and status error exactly on nonzero exit.  The traced command pins down
which invocation the oracle answered. -/
theorem runApply_exit (cmd0 : List String) (spawn : List String → SpawnResult)
    (cmd : List String) (r : CompletedProcess)
    (ht : (runApply cmd0 spawn).2 = [cmd]) (hs : spawn cmd = .ok r) :
    (r.returncode = 0 →
      statusOf (runApply cmd0 spawn).1 = some "success")
  ∧ (r.returncode ≠ 0 →
      statusOf (runApply cmd0 spawn).1 = some "error") := by
  have htr : (runApply cmd0 spawn).2 = [cmd0] := by
    cases h : spawn cmd0 with
    | exn m => simp only [runApply, h]
    | ok rr =>
      simp only [runApply, h]
      split <;> rfl
  have hc : cmd = cmd0 := by
    have h2 := htr.symm.trans ht
    simp only [List.cons.injEq, and_true] at h2
    exact h2.symm
  subst hc
  cases h : spawn cmd with
  | exn m =>
    rw [h] at hs
    cases hs
  | ok rr =>
    rw [h] at hs
    injection hs with hr
    subst hr
    constructor
    · intro h0
      simp only [runApply, h]
      split
      case isTrue h2 => exact absurd h0 (by simpa using h2)
      case isFalse h2 => rfl
    · intro h0
      simp only [runApply, h]
      split
      case isTrue h2 => rfl
      case isFalse h2 =>
        exact absurd (by simpa using h2) h0

/-- C1 (amended): `kubectl_apply` and `kubectl_generic` always return a
status-tagged success envelope, a status-tagged error envelope, or the
bare single-key `{"error": message}` dictionary (raised exceptions and
caller errors), none carrying the resource_type, name or namespace
context fields; when the spawned command completes, `kubectl_apply` and
`kubectl_generic` with capture_output true return the success envelope
exactly on exit code 0 and the error envelope exactly on nonzero exit,
while `kubectl_generic` with capture_output false returns a success
envelope regardless of the exit code. -/
theorem dispatcher_envelope_shapes (manifest filename nsp : Option String)
    (force : Bool) (tmpName : String) (args : List String)
    (capture_output : Bool) (spawn : List String → SpawnResult) :
    dispatchShape (kubectl_apply manifest filename nsp force tmpName spawn).1 = true
  ∧ dispatchShape (kubectl_generic args capture_output spawn).1 = true
  ∧ (∀ cmd r, (kubectl_apply manifest filename nsp force tmpName spawn).2 = [cmd] →
      spawn cmd = .ok r →
      (r.returncode = 0 →
        statusOf (kubectl_apply manifest filename nsp force tmpName spawn).1
          = some "success")
      ∧ (r.returncode ≠ 0 →
        statusOf (kubectl_apply manifest filename nsp force tmpName spawn).1
          = some "error"))
  ∧ (∀ cmd r, (kubectl_generic args true spawn).2 = [cmd] →
      spawn cmd = .ok r →
      (r.returncode = 0 →
        statusOf (kubectl_generic args true spawn).1 = some "success")
      ∧ (r.returncode ≠ 0 →
        statusOf (kubectl_generic args true spawn).1 = some "error"))
  ∧ (∀ r, spawn (["kubectl"] ++ args) = .ok r →
      statusOf (kubectl_generic args false spawn).1 = some "success") := by
  have hrun : ∀ cmd, dispatchShape (runApply cmd spawn).1 = true := by
    intro cmd
    cases h : spawn cmd with
    | exn m =>
      simp only [runApply, h]
      rfl
    | ok r =>
      simp only [runApply, h]
      split <;> rfl
  refine ⟨?_, ?_, ?_, ?_, ?_⟩
  · simp only [kubectl_apply]
    split
    · exact hrun _
    · split
      · exact hrun _
      · rfl
  · cases h : spawn (["kubectl"] ++ args) with
    | exn m =>
      simp only [kubectl_generic, h]
      rfl
    | ok r =>
      simp only [kubectl_generic, h]
      split
      · split <;> rfl
      · rfl
  · intro cmd r
    simp only [kubectl_apply]
    split
    · exact fun ht hs => runApply_exit _ spawn cmd r ht hs
    · split
      · exact fun ht hs => runApply_exit _ spawn cmd r ht hs
      · intro ht
        simp at ht
  · intro cmd r ht hs
    have htr : (kubectl_generic args true spawn).2 = [["kubectl"] ++ args] := by
      cases h : spawn (["kubectl"] ++ args) with
      | exn m => simp only [kubectl_generic, h]
      | ok rr =>
        simp only [kubectl_generic, h]
        split
        · split <;> rfl
        · rfl
    have hc : cmd = ["kubectl"] ++ args := by
      have h2 := htr.symm.trans ht
      simp only [List.cons.injEq, and_true] at h2
      exact h2.symm
    subst hc
    cases h : spawn (["kubectl"] ++ args) with
    | exn m =>
      rw [h] at hs
      cases hs
    | ok rr =>
      rw [h] at hs
      injection hs with hr
      subst hr
      constructor
      · intro h0
        simp only [kubectl_generic, h]
        split
        · split
          case isTrue h2 => exact absurd h0 (by simpa using h2)
          case isFalse h2 => rfl
        · rfl
      · intro h0
        simp only [kubectl_generic, h]
        split
        · split
          case isTrue h2 => rfl
          case isFalse h2 =>
            exact absurd (by simpa using h2) h0
        · case isFalse h2 => exact absurd trivial h2
  · intro r hs
    simp only [kubectl_generic, hs]
    rfl

/-- Concrete check of the C1 theorem: a completed apply with exit code 1
yields the status-error envelope, and uncaptured generic execution with
exit code 3 still yields the status-success envelope. -/
theorem dispatcher_envelope_shapes_witness :
    statusOf ((kubectl_apply (some "kind: Pod") none none false "tmp.yaml"
        (fun _ => .ok ⟨1, "", "denied"⟩)).1) = some "error"
  ∧ statusOf ((kubectl_generic ["version"] false
        (fun _ => .ok ⟨3, "", ""⟩)).1) = some "success" := by
  constructor
  · exact ((dispatcher_envelope_shapes (some "kind: Pod") none none false
      "tmp.yaml" ["version"] false (fun _ => .ok ⟨1, "", "denied"⟩)).2.2.1
      ["kubectl", "apply", "-f", "tmp.yaml"] ⟨1, "", "denied"⟩ rfl rfl).2
      (by decide)
  · exact (dispatcher_envelope_shapes (some "kind: Pod") none none false
      "tmp.yaml" ["version"] false (fun _ => .ok ⟨3, "", ""⟩)).2.2.2.2
      ⟨3, "", ""⟩ rfl

/-- C4: calling `kubectl_apply` with neither manifest nor filename
returns the caller-error dictionary before any subprocess invocation:
the spawn trace is empty, regardless of namespace and force. -/
theorem kubectl_apply_missing_input_no_spawn (nsp : Option String)
    (force : Bool) (tmpName : String) (spawn : List String → SpawnResult) :
    kubectl_apply none none nsp force tmpName spawn
      = (.jobj [("error", .jstr "Either manifest or filename must be provided")],
         []) := by
  rfl

/-- C10: for every patch_type outside the three known keywords,
`kubectl_patch` returns no caller error: it behaves exactly as if
patch_type were "strategic" and spawns exactly one subprocess with the
`--type=strategic` flag. -/
theorem kubectl_patch_unknown_type_falls_back (resource_type name patch : String)
    (nsp : Option String) (patch_type : String)
    (spawn : List String → SpawnResult)
    (h1 : patch_type ≠ "strategic") (h2 : patch_type ≠ "merge")
    (h3 : patch_type ≠ "json") :
    kubectl_patch resource_type name patch nsp patch_type spawn
      = kubectl_patch resource_type name patch nsp "strategic" spawn
  ∧ (kubectl_patch resource_type name patch nsp patch_type spawn).2
      = [patchCmd resource_type name patch nsp "strategic"] := by
  have hcmd : patchCmd resource_type name patch nsp patch_type
      = patchCmd resource_type name patch nsp "strategic" := by
    simp only [patchCmd, beq_iff_eq, if_neg h1, if_neg h2, if_neg h3]
    rfl
  have hres : kubectl_patch resource_type name patch nsp patch_type spawn
      = kubectl_patch resource_type name patch nsp "strategic" spawn := by
    simp only [kubectl_patch, hcmd]
  refine ⟨hres, ?_⟩
  rw [hres]
  cases h : spawn (patchCmd resource_type name patch nsp "strategic") with
  | exn m => simp only [kubectl_patch, h]
  | ok r =>
    simp only [kubectl_patch, h]
    split <;> rfl

/-- Concrete check of the C10 theorem at the unsupported patch_type
"bogus": identical result to "strategic" and a single spawned command
carrying the strategic flag. -/
theorem kubectl_patch_unknown_type_falls_back_witness :
    kubectl_patch "deployment" "web" "\x7b\x7d" none "bogus"
        (fun _ => .ok ⟨0, "patched", ""⟩)
      = kubectl_patch "deployment" "web" "\x7b\x7d" none "strategic"
        (fun _ => .ok ⟨0, "patched", ""⟩)
  ∧ (kubectl_patch "deployment" "web" "\x7b\x7d" none "bogus"
        (fun _ => .ok ⟨0, "patched", ""⟩)).2
      = [patchCmd "deployment" "web" "\x7b\x7d" none "strategic"] :=
  kubectl_patch_unknown_type_falls_back "deployment" "web" "\x7b\x7d" none
    "bogus" (fun _ => .ok ⟨0, "patched", ""⟩)
    (by decide) (by decide) (by decide)

/-- A line parses to a record exactly when it has at least five
whitespace-separated tokens. -/
theorem parseApiLine_isSome (line : String) :
    (parseApiLine line).isSome = decide (5 ≤ (pySplit line).length) := by
  unfold parseApiLine
  rcases h : pySplit line with _ | ⟨a, _ | ⟨b, _ | ⟨c, _ | ⟨d, _ | ⟨e, rest⟩⟩⟩⟩⟩ <;>
    simp [h]

/-- The number of records a filterMap keeps is the number of elements on
which the function fires. -/
theorem length_filterMap_eq_countP {α β : Type} (f : α → Option β)
    (l : List α) :
    (l.filterMap f).length = l.countP (fun a => (f a).isSome) := by
  induction l with
  | nil => rfl
  | cons a t ih =>
    cases h : f a <;>
      simp [List.filterMap_cons, h, List.countP_cons, ih]

/-- C6: in `list_api_resources`, for every stdout blob the command
produces, every post-header line with fewer than five
whitespace-separated tokens is excluded from the parsed list, a
shortnames token equal to the literal "none" is normalized to an empty
list, and total_count counts exactly the included lines. -/
theorem list_api_resources_parsing (s : String) :
    (∀ line, (pySplit line).length < 5 → parseApiLine line = none)
  ∧ (∀ line p1 rest, pySplit line = p1 :: "none" :: rest →
      ∀ j, parseApiLine line = some j → jget j "shortnames" = some (.jarr []))
  ∧ jget ((list_api_resources (fun _ => .ok ⟨0, s, ""⟩)).1) "resources"
      = some (.jarr ((apiResourceLines s).filterMap parseApiLine))
  ∧ jget ((list_api_resources (fun _ => .ok ⟨0, s, ""⟩)).1) "total_count"
      = some (.jnum ((apiResourceLines s).countP
          (fun l => decide (5 ≤ (pySplit l).length)))) := by
  refine ⟨?_, ?_, ?_, ?_⟩
  · intro line hlt
    have h := parseApiLine_isSome line
    rw [decide_eq_false (by omega)] at h
    exact Option.not_isSome_iff_eq_none.mp (by simp [h])
  · intro line p1 rest hsplit j hj
    unfold parseApiLine at hj
    rw [hsplit] at hj
    rcases rest with _ | ⟨q2, _ | ⟨q3, _ | ⟨q4, qrest⟩⟩⟩ <;> simp_all
    subst hj
    rfl
  · rfl
  · have hbase : jget ((list_api_resources (fun _ => .ok ⟨0, s, ""⟩)).1)
        "total_count"
        = some (.jnum ((apiResourceLines s).filterMap parseApiLine).length) :=
      rfl
    have hc : (apiResourceLines s).countP (fun a => (parseApiLine a).isSome)
        = (apiResourceLines s).countP (fun l => decide (5 ≤ (pySplit l).length)) := by
      apply List.countP_congr
      intro l _
      simp [parseApiLine_isSome]
    rw [hbase, length_filterMap_eq_countP, hc]

/-- Concrete check of the C6 theorem on a fixed stdout blob: a two-token
line is excluded, a "none" shortnames token becomes an empty list, and
total_count counts only the included line. -/
theorem list_api_resources_parsing_witness :
    parseApiLine "pods po" = none
  ∧ jget (.jobj [
      ("name", .jstr "svc"),
      ("shortnames", .jarr []),
      ("apiversion", .jstr "v1"),
      ("namespaced", .jbool true),
      ("kind", .jstr "Service")]) "shortnames" = some (.jarr [])
  ∧ jget ((list_api_resources (fun _ => .ok ⟨0, "h\na b c d e\nf g", ""⟩)).1)
      "total_count" = some (.jnum 1) := by
  refine ⟨?_, ?_, ?_⟩
  · exact (list_api_resources_parsing "").1 "pods po" (by decide)
  · exact (list_api_resources_parsing "").2.1 "svc none v1 true Service"
      "svc" ["v1", "true", "Service"] (by decide) _ rfl
  · have h := (list_api_resources_parsing "h\na b c d e\nf g").2.2.2
    rw [h]
    rfl

/-- C5's failing input: a follow invocation whose subprocess never exits
naturally, is force-killed by the timer, and leaves stderr empty.  The
success envelope reports `truncated = false` even though termination was
forced, because `terminate()` in the finally block reaps the killed
child and sets `returncode`, so `process.returncode is None` is false.
The claim (and the code's own inline comment) say this flag is true
exactly when the kill timer fired. -/
theorem kubectl_logs_follow_truncated_bug :
    jget (kubectl_logs_follow "web" none "default"
        ⟨["line1\n", "line2\n"], true, true, -9, ""⟩) "truncated"
      = some (.jbool false)
  ∧ statusOf (kubectl_logs_follow "web" none "default"
        ⟨["line1\n", "line2\n"], true, true, -9, ""⟩) = some "success" := by
  exact ⟨rfl, rfl⟩

/-- C9 counterexample, falsifying the claim as stated at three concrete
inputs.  First, on a connector where no port-forward was ever started
(the session table attribute does not exist), stopping a key that is
consequently not in any session map returns a "warning" envelope, not
the claimed error envelope.  Second, stopping the empty-string key on a
one-session table hits the falsy branch of the `if process_key:` guard
and stop-alls the table: no error envelope, and every session is a side
effect away, though the key is absent from the map.  Third, a stop-all
whose single wait raises returns an `{"error": ...}` envelope with the
session still in the map, so the map is not left empty. -/
theorem stop_port_forward_claim_counterexample :
    (statusOf ((stop_port_forward none (some "k") (fun _ => none)).1)
      = some "warning"
     ∧ statusOf ((stop_port_forward none (some "k") (fun _ => none)).1)
      ≠ some "error")
  ∧ stop_port_forward (some [("a", 1)]) (some "") (fun _ => none)
      = (.jobj [("status", .jstr "success"),
                ("message",
                 .jstr "Stopped all port-forwarding processes (1 total)")],
         some [])
  ∧ stop_port_forward (some [("a", 1)]) none (fun _ => some "timeout")
      = (.jobj [("error",
                 .jstr "Failed to stop port forwarding: timeout")],
         some [("a", 1)]) := by
  exact ⟨⟨rfl, by decide⟩, rfl, rfl⟩

/-- When every wait returns in time, the stop-all loop deletes every
entry and reports the accumulated count. -/
theorem stopAllLoop_all_ok (wait : String → Option String)
    (table : List (String × Nat)) (n : Nat)
    (h : ∀ k, k ∈ table.map Prod.fst → wait k = none) :
    stopAllLoop wait table n
      = (.jobj [("status", .jstr "success"),
                ("message", .jstr ("Stopped all port-forwarding processes ("
                  ++ toString (n + table.length) ++ " total)"))], []) := by
  induction table generalizing n with
  | nil => rfl
  | cons e rest ih =>
    obtain ⟨k, p⟩ := e
    have hk : wait k = none := h k (by simp)
    have hrest : ∀ k2, k2 ∈ rest.map Prod.fst → wait k2 = none := by
      intro k2 hk2
      exact h k2 (by simp [hk2])
    have harith : n + 1 + rest.length = n + (rest.length + 1) := by omega
    simp only [stopAllLoop, hk, ih (n + 1) hrest, harith, List.length_cons]

/-- A raised wait aborts the stop-all loop: the entries walked so far
stay deleted, the failing entry and everything after it stay in the
table, and the loop returns the exception dictionary. -/
theorem stopAllLoop_abort (wait : String → Option String) (k : String)
    (p : Nat) (post : List (String × Nat)) (m : String)
    (hk : wait k = some m) :
    ∀ (pre : List (String × Nat)) (n : Nat),
      (∀ k2, k2 ∈ pre.map Prod.fst → wait k2 = none) →
      stopAllLoop wait (pre ++ (k, p) :: post) n
        = (.jobj [("error",
                   .jstr ("Failed to stop port forwarding: " ++ m))],
           (k, p) :: post) := by
  intro pre
  induction pre with
  | nil =>
    intro n _
    simp only [List.nil_append, stopAllLoop, hk]
  | cons e rest ih =>
    intro n hpre
    obtain ⟨k2, p2⟩ := e
    have h2 : wait k2 = none := hpre k2 (by simp)
    simp only [List.cons_append, stopAllLoop, h2]
    exact ih (n + 1) (fun k3 h3 => hpre k3 (by simp [h3]))

/-- C9 (amended): stop-all empties the session table and reports success
when every process terminates within its wait, and when a wait raises it
returns an exception dictionary with the failing session and those after
it still in the table; stopping a nonempty key absent from an existing
session table returns an error envelope and leaves the table unchanged,
while the empty-string key is falsy and behaves exactly like the no-key
stop-all call; and when no port-forward was ever started (the table
attribute does not exist) any stop request returns a warning envelope. -/
theorem stop_port_forward_behavior :
    (∀ (table : List (String × Nat)) (wait : String → Option String),
      (∀ k, k ∈ table.map Prod.fst → wait k = none) →
      stop_port_forward (some table) none wait
        = (.jobj [("status", .jstr "success"),
                  ("message", .jstr ("Stopped all port-forwarding processes ("
                    ++ toString table.length ++ " total)"))], some []))
  ∧ (∀ (table : List (String × Nat)) (k : String)
      (wait : String → Option String),
      k ≠ "" → sessionLookup table k = none →
      stop_port_forward (some table) (some k) wait
        = (.jobj [("status", .jstr "error"),
                  ("message", .jstr ("No port-forwarding process found for key: "
                    ++ k))], some table))
  ∧ (∀ (table : List (String × Nat)) (wait : String → Option String),
      stop_port_forward (some table) (some "") wait
        = stop_port_forward (some table) none wait)
  ∧ (∀ (process_key : Option String) (wait : String → Option String),
      stop_port_forward none process_key wait
        = (.jobj [("status", .jstr "warning"),
                  ("message", .jstr "No port-forwarding processes exist")],
           none))
  ∧ (∀ (pre : List (String × Nat)) (k : String) (p : Nat)
      (post : List (String × Nat)) (m : String)
      (wait : String → Option String),
      (∀ k2, k2 ∈ pre.map Prod.fst → wait k2 = none) → wait k = some m →
      stop_port_forward (some (pre ++ (k, p) :: post)) none wait
        = (.jobj [("error",
                   .jstr ("Failed to stop port forwarding: " ++ m))],
           some ((k, p) :: post))) := by
  refine ⟨?_, ?_, ?_, ?_, ?_⟩
  · intro table wait h
    simp [stop_port_forward, truthyOpt, stopAllLoop_all_ok wait table 0 h]
  · intro table k wait hk hlook
    have hke : k.isEmpty = false := by
      cases he : k.isEmpty
      · rfl
      · exact absurd ((String.isEmpty_iff k).mp he) hk
    simp only [stop_port_forward, truthyOpt, hke, Bool.not_false, if_true,
      optVal, hlook]
  · intro table wait
    rfl
  · intro process_key wait
    rfl
  · intro pre k p post m wait hpre hk
    simp [stop_port_forward, truthyOpt,
      stopAllLoop_abort wait k p post m hk pre 0 hpre]

/-- Concrete check of the C9 theorem: stop-all on a two-session table
empties it; stopping a missing nonempty key on a one-session table
errors without touching the table; and a stop-all whose second wait
raises leaves that session in the table. -/
theorem stop_port_forward_behavior_witness :
    stop_port_forward (some [("a", 1), ("b", 2)]) none (fun _ => none)
      = (.jobj [("status", .jstr "success"),
                ("message",
                 .jstr "Stopped all port-forwarding processes (2 total)")],
         some [])
  ∧ stop_port_forward (some [("a", 1)]) (some "b") (fun _ => none)
      = (.jobj [("status", .jstr "error"),
                ("message",
                 .jstr "No port-forwarding process found for key: b")],
         some [("a", 1)])
  ∧ stop_port_forward (some [("a", 1), ("b", 2)]) none
        (fun k => if k == "b" then some "timed out" else none)
      = (.jobj [("error",
                 .jstr "Failed to stop port forwarding: timed out")],
         some [("b", 2)]) := by
  refine ⟨?_, ?_, ?_⟩
  · exact stop_port_forward_behavior.1 [("a", 1), ("b", 2)] (fun _ => none)
      (fun k _ => rfl)
  · exact stop_port_forward_behavior.2.1 [("a", 1)] "b" (fun _ => none)
      (by decide) rfl
  · exact stop_port_forward_behavior.2.2.2.2 [("a", 1)] "b" 2 [] "timed out"
      (fun k => if k == "b" then some "timed out" else none)
      (by
        intro k2 h2
        simp only [List.map_cons, List.map_nil, List.mem_singleton] at h2
        subst h2
        rfl)
      rfl

/-- Once an instance exists, every further call returns it and runs the
constructor zero times. -/
theorem singletonRun_saturated {A I : Type} (mk : A → I) (inst : I)
    (calls : List A) :
    singletonRun mk (some inst) calls
      = (List.replicate calls.length inst, some inst, 0) := by
  induction calls with
  | nil => rfl
  | cons a rest ih =>
    simp only [singletonRun, singletonCall, ih, List.length_cons,
      List.replicate_succ]

/-- C8: after the first construction of the singleton class, every
subsequent construction call, even with different arguments, returns the
identical original instance, and exactly one constructor run ever
happens. -/
theorem singleton_one_instance {A I : Type} (mk : A → I) (a : A)
    (rest : List A) :
    singletonRun mk none (a :: rest)
      = (mk a :: List.replicate rest.length (mk a), some (mk a), 1) := by
  simp only [singletonRun, singletonCall, singletonRun_saturated]

/-- C7 counterexample: with no connector supplied and the singleton
construction raising (line 42 sits before the try block), the tool call
itself raises instead of returning an error envelope. -/
theorem kubernetes_read_tool_raises_counterexample :
    kubernetes_read_tool "pods" "default" "" none
      (.exn "in-cluster config load failed") (fun _ => "")
      = .raises "in-cluster config load failed" := rfl

/-- C7 (amended): whenever a connector instance is supplied, or the
default construction succeeds, the tool never raises: for every
resource_type (including unsupported ones) and every connector outcome
(including raised exceptions) it returns a one-element list with a
single TextContent whose text is the serialization of a tagged result. -/
theorem kubernetes_read_tool_no_throw (resource_type nsp label_selector : String)
    (k8s_connector : Option ConnectorCalls)
    (constructorOutcome : PyResult ConnectorCalls) (dumps : JValue → String)
    (h : k8s_connector.isSome = true
      ∨ ∃ c, constructorOutcome = PyResult.ok c) :
    ∃ j, kubernetes_read_tool resource_type nsp label_selector k8s_connector
        constructorOutcome dumps = .returns [⟨"text", dumps j⟩] := by
  rcases k8s_connector with _ | c
  · rcases h with h | ⟨c, rfl⟩
    · simp at h
    · cases hd : readDispatch resource_type nsp label_selector c with
      | ok result =>
        exact ⟨result, by simp only [kubernetes_read_tool, hd]⟩
      | exn m =>
        exact ⟨.jobj [("error", .jstr ("Tool execution failed: " ++ m))],
          by simp only [kubernetes_read_tool, hd]⟩
  · cases hd : readDispatch resource_type nsp label_selector c with
    | ok result =>
      exact ⟨result, by simp only [kubernetes_read_tool, hd]⟩
    | exn m =>
      exact ⟨.jobj [("error", .jstr ("Tool execution failed: " ++ m))],
        by simp only [kubernetes_read_tool, hd]⟩

/-- Concrete check of the C7 theorem: with a supplied connector whose
pods call raises, the tool still returns a single serialized text
content. -/
theorem kubernetes_read_tool_no_throw_witness :
    kubernetes_read_tool "pods" "default" ""
      (some ⟨fun _ _ => .exn "api down", fun _ => .ok (.jobj []),
             fun _ => .ok (.jobj []), .ok (.jobj [])⟩)
      (.exn "never constructed") (fun _ => "serialized")
      = .returns [⟨"text", "serialized"⟩] := by
  obtain ⟨j, hj⟩ := kubernetes_read_tool_no_throw "pods" "default" ""
    (some ⟨fun _ _ => .exn "api down", fun _ => .ok (.jobj []),
           fun _ => .ok (.jobj []), .ok (.jobj [])⟩)
    (.exn "never constructed") (fun _ => "serialized") (Or.inl rfl)
  rw [hj]
